import Mathlib

/-!
# mayaserver: `lib/orchprovider/nomad/helper_funcs.go`

A shallow embedding of the transformations between persistent volume claims,
persistent volumes and Nomad jobs, followed by theorems about them.

Conventions of the embedding:

* a Go pointer (`*T`) is an `Option T`, `nil` being `none`;
* a Go `map[string]string` is an association list read by its first match,
  wrapped in an `Option` whose `none` is the nil map;
* a Go `(result, error)` pair in which exactly one side is set is an
  `Except String result`, the string being the message of the error;
* `time.Duration` is an integer number of nanoseconds.
-/

namespace Nomad

/-! ## Go maps -/

/-- Go `map[string]string`; `none` is the nil map. -/
abbrev StrMap := Option (List (String × String))

/-- The two-valued read `v, ok := m[k]` of a Go map: `none` when the key is absent. -/
def mapFind (m : StrMap) (k : String) : Option String :=
  match m with
  | none => none
  | some l => l.lookup k

/-- The read `m[k]` of a Go map: the zero value `""` when the key is absent (or the map nil). -/
def mapIndex (m : StrMap) (k : String) : String :=
  (mapFind m k).getD ""

/-- Go `delete(m, k)`. -/
def mapDelete (m : StrMap) (k : String) : StrMap :=
  m.map (fun l => l.filter (fun e => e.1 != k))

/-- Go `m[k] = v` on a map that is not nil. -/
def mapSet (m : StrMap) (k v : String) : StrMap :=
  m.map (fun l => (k, v) :: l.filter (fun e => e.1 != k))

/-! ## Constants declared outside this file

`lib/api/v1` and `lib/api/v1/jiva` declare the label keys and the iSCSI
constants; the functions below take them as a parameter. -/

/-- The constants of `v1` and `v1jiva` that `helper_funcs.go` refers to. -/
structure ApiConsts where
  RegionLbl : String
  DatacenterLbl : String
  JivaFrontEndImageLbl : String
  CNTypeLbl : String
  JivaFrontEndIPLbl : String
  JivaBackEndIPLbl : String
  CNSubnetLbl : String
  CNInterfaceLbl : String
  JivaIscsiTargetPortalPort : String
  JivaIqnFormatPrefix : String
deriving DecidableEq, Repr

/-! ## Types of `v1` and of the Nomad `api` package (the fields this file uses) -/

/-- Mirror of `v1.PersistentVolumeClaim`. -/
structure PersistentVolumeClaim where
  Name : String
  Labels : StrMap
deriving DecidableEq, Repr

/-- Mirror of `v1.PersistentVolumeStatus`. -/
structure PersistentVolumeStatus where
  Message : String
  Reason : String
deriving DecidableEq, Repr

/-- Mirror of `v1.PersistentVolume`. -/
structure PersistentVolume where
  Name : String
  Annotations : StrMap
  Status : PersistentVolumeStatus
deriving DecidableEq, Repr

/-- Mirror of `api.Constraint`. -/
structure Constraint where
  LTarget : String
  RTarget : String
  Operand : String
deriving DecidableEq, Repr

/-- Mirror of `api.RestartPolicy`. -/
structure RestartPolicy where
  Interval : Option Int
  Attempts : Option Int
  Delay : Option Int
  Mode : Option String
deriving DecidableEq, Repr

/-- Mirror of `api.NetworkResource`. -/
structure NetworkResource where
  MBits : Option Int
deriving DecidableEq, Repr

/-- Mirror of `api.Resources`. -/
structure Resources where
  CPU : Option Int
  MemoryMB : Option Int
  Networks : List NetworkResource
deriving DecidableEq, Repr

/-- Mirror of `api.TaskArtifact`. -/
structure TaskArtifact where
  GetterSource : Option String
  RelativeDest : Option String
deriving DecidableEq, Repr

/-- Mirror of `api.LogConfig`. -/
structure LogConfig where
  MaxFiles : Option Int
  MaxFileSizeMB : Option Int
deriving DecidableEq, Repr

/-- Mirror of `api.Task`. `Config` is a `map[string]interface{}`; the only
values stored in it here are strings. -/
structure Task where
  Name : String
  Driver : String
  Config : List (String × String)
  Env : StrMap
  Resources : Option Resources
  Artifacts : List TaskArtifact
  LogConfig : Option LogConfig
deriving DecidableEq, Repr

/-- Mirror of `api.TaskGroup`. -/
structure TaskGroup where
  Name : Option String
  Count : Option Int
  RestartPolicy : Option RestartPolicy
  Tasks : List Task
deriving DecidableEq, Repr

/-- Mirror of `api.Job`. A nil slice is the empty list; the field `Type` is
named `JobType` here (as is `EvalType` in `Evaluation`). -/
structure Job where
  Region : Option String
  ID : Option String
  Name : Option String
  JobType : Option String
  Priority : Option Int
  Datacenters : List String
  Constraints : List Constraint
  TaskGroups : List TaskGroup
  Meta : StrMap
  Status : Option String
  StatusDescription : Option String
deriving DecidableEq, Repr

/-- Mirror of `api.Evaluation`. -/
structure Evaluation where
  Priority : Int
  EvalType : String
  TriggeredBy : String
  JobID : String
  Status : String
  StatusDescription : String
  BlockedEval : String
deriving DecidableEq, Repr

/-- What a call of a Go function of type `(*T, error)` ends in: a result with a
nil error, an error with a nil result, or a run-time panic. -/
inductive Outcome (α : Type) where
  | ok : α → Outcome α
  | error : String → Outcome α
  | panic : Outcome α
deriving DecidableEq, Repr

/-! ## Library functions and constants -/

/-- Go `time.Second`, in nanoseconds. -/
def Second : Int := 1000000000

/-- Go `time.Minute`, in nanoseconds. -/
def Minute : Int := 60 * Second

/-- Nomad `api.JobTypeService`. -/
def JobTypeService : String := "service"

/-- Nomad `structs.JobStatusRunning`. -/
def JobStatusRunning : String := "running"

/-- Nomad `api.NewConstraint`. -/
def NewConstraint (left operand right : String) : Constraint :=
  { LTarget := left, RTarget := right, Operand := operand }

/-- Nomad `helper.StringToPtr`. -/
def StringToPtr (s : String) : Option String := some s

/-- Nomad `helper.IntToPtr`. -/
def IntToPtr (i : Int) : Option Int := some i

/-- Nomad `helper.TimeToPtr`. -/
def TimeToPtr (t : Int) : Option Int := some t

/-- Go `strconv.Itoa`: the decimal digits of the integer, after a `-` when it is negative. -/
def Itoa (i : Int) : String :=
  match i with
  | Int.ofNat n => Nat.repr n
  | Int.negSucc n => "-" ++ Nat.repr (n + 1)

/-! ## The functions of `helper_funcs.go` -/

/-- Embedding of `PvcToJobName`: the job name of a persistent volume claim. -/
def PvcToJobName (pvc : Option PersistentVolumeClaim) : Except String String :=
  match pvc with
  | none => .error "Nil persistent volume claim provided"
  | some pvc =>
    if pvc.Name = "" then
      .error "Missing name in persistent volume claim"
    else
      .ok pvc.Name

/-- Embedding of `PvcToJob`: a persistent volume claim as a Nomad job. -/
def PvcToJob (K : ApiConsts) (pvc : Option PersistentVolumeClaim) : Except String Job :=
  match pvc with
  | none => .error "Nil persistent volume claim provided"
  | some pvc =>
    if pvc.Name = "" then
      .error "Missing name in persistent volume claim"
    else if pvc.Labels = none then
      .error "Missing labels in persistent volume claim"
    else if mapIndex pvc.Labels K.RegionLbl = "" then
      .error "Missing region in persistent volume claim"
    else if mapIndex pvc.Labels K.DatacenterLbl = "" then
      .error "Missing datacenter in persistent volume claim"
    else if mapIndex pvc.Labels K.JivaFrontEndImageLbl = "" then
      .error "Missing jiva fe image version in persistent volume claim"
    else if mapIndex pvc.Labels K.CNTypeLbl = "" then
      .error "Missing cn type in persistent volume claim"
    else if mapIndex pvc.Labels K.JivaFrontEndIPLbl = "" then
      .error "Missing jiva fe ip in persistent volume claim"
    else if mapIndex pvc.Labels K.JivaBackEndIPLbl = "" then
      .error "Missing jiva be ip in persistent volume claim"
    else if mapIndex pvc.Labels K.CNSubnetLbl = "" then
      .error "Missing cn subnet in persistent volume claim"
    else if mapIndex pvc.Labels K.CNInterfaceLbl = "" then
      .error "Missing cn interface in persistent volume claim"
    else
      let jobName := StringToPtr pvc.Name
      let region := StringToPtr (mapIndex pvc.Labels K.RegionLbl)
      let dc := mapIndex pvc.Labels K.DatacenterLbl
      let jivaGroupName := "pod"
      let jivaVolName := pvc.Name
      let jivaVolSize := "5g"
      let feTaskGroup := "fe" ++ jivaGroupName
      let feTaskName := "fe1"
      let beTaskGroup := "be" ++ jivaGroupName
      let beTaskName := "be1"
      let jivaFeVersion := mapIndex pvc.Labels K.JivaFrontEndImageLbl
      let jivaNetworkType := mapIndex pvc.Labels K.CNTypeLbl
      let jivaFeIP := mapIndex pvc.Labels K.JivaFrontEndIPLbl
      let jivaBeIP := mapIndex pvc.Labels K.JivaBackEndIPLbl
      let jivaFeSubnet := mapIndex pvc.Labels K.CNSubnetLbl
      let jivaFeInterface := mapIndex pvc.Labels K.CNInterfaceLbl
      .ok {
        Region := region
        Name := jobName
        ID := jobName
        Datacenters := [dc]
        JobType := StringToPtr JobTypeService
        Priority := IntToPtr 50
        Constraints := [NewConstraint "$\x7battr.kernel.name\x7d" "=" "linux"]
        Meta := some [
          ("targetportal", jivaFeIP ++ ":" ++ K.JivaIscsiTargetPortalPort),
          ("iqn", K.JivaIqnFormatPrefix ++ ":" ++ jivaVolName)]
        TaskGroups := [
          -- jiva frontend
          { Name := StringToPtr feTaskGroup
            Count := IntToPtr 1
            RestartPolicy := some {
              Attempts := IntToPtr 3
              Interval := TimeToPtr (5 * Minute)
              Delay := TimeToPtr (25 * Second)
              Mode := StringToPtr "delay" }
            Tasks := [
              { Name := feTaskName
                Driver := "raw_exec"
                Resources := some {
                  CPU := IntToPtr 500
                  MemoryMB := IntToPtr 256
                  Networks := [{ MBits := IntToPtr 400 }] }
                Env := some [
                  ("JIVA_CTL_NAME", pvc.Name ++ "-" ++ feTaskGroup ++ "-" ++ feTaskName),
                  ("JIVA_CTL_VERSION", jivaFeVersion),
                  ("JIVA_CTL_VOLNAME", jivaVolName),
                  ("JIVA_CTL_VOLSIZE", jivaVolSize),
                  ("JIVA_CTL_IP", jivaFeIP),
                  ("JIVA_CTL_SUBNET", jivaFeSubnet),
                  ("JIVA_CTL_IFACE", jivaFeInterface)]
                Artifacts := [
                  { GetterSource := StringToPtr
                      "https://raw.githubusercontent.com/openebs/jiva/master/scripts/launch-jiva-ctl-with-ip"
                    RelativeDest := StringToPtr "local/" }]
                Config := [("command", "launch-jiva-ctl-with-ip")]
                LogConfig := some {
                  MaxFiles := IntToPtr 3
                  MaxFileSizeMB := IntToPtr 1 } }] },
          -- jiva replica
          { Name := StringToPtr beTaskGroup
            Count := IntToPtr 1
            RestartPolicy := some {
              Attempts := IntToPtr 3
              Interval := TimeToPtr (5 * Minute)
              Delay := TimeToPtr (25 * Second)
              Mode := StringToPtr "delay" }
            Tasks := [
              { Name := beTaskName
                Driver := "raw_exec"
                Resources := some {
                  CPU := IntToPtr 500
                  MemoryMB := IntToPtr 256
                  Networks := [{ MBits := IntToPtr 400 }] }
                Env := some [
                  ("JIVA_REP_NAME", pvc.Name ++ "-" ++ beTaskGroup ++ "-" ++ beTaskName),
                  ("JIVA_CTL_IP", jivaFeIP),
                  ("JIVA_REP_VOLNAME", jivaVolName),
                  ("JIVA_REP_VOLSIZE", jivaVolSize),
                  ("JIVA_REP_VOLSTORE", "/tmp/jiva/" ++ pvc.Name ++ beTaskGroup ++ "/" ++ beTaskName),
                  ("JIVA_REP_VERSION", jivaFeVersion),
                  ("JIVA_REP_NETWORK", jivaNetworkType),
                  ("JIVA_REP_IFACE", jivaFeInterface),
                  ("JIVA_REP_IP", jivaBeIP),
                  ("JIVA_REP_SUBNET", jivaFeSubnet)]
                Artifacts := [
                  { GetterSource := StringToPtr
                      "https://raw.githubusercontent.com/openebs/jiva/master/scripts/launch-jiva-rep-with-ip"
                    RelativeDest := StringToPtr "local/" }]
                Config := [("command", "launch-jiva-rep-with-ip")]
                LogConfig := some {
                  MaxFiles := IntToPtr 3
                  MaxFileSizeMB := IntToPtr 1 } }] }]
        Status := none
        StatusDescription := none }

/-- Embedding of `JobEvalToPv`: the evaluation of a job as a persistent volume. -/
def JobEvalToPv (jobName : String) (eval : Option Evaluation) :
    Except String PersistentVolume :=
  match eval with
  | none => .error "Nil job evaluation provided"
  | some eval =>
    let evalProps : StrMap := some [
      ("evalpriority", Itoa eval.Priority),
      ("evaltype", eval.EvalType),
      ("evaltrigger", eval.TriggeredBy),
      ("evaljob", eval.JobID),
      ("evalstatus", eval.Status),
      ("evalstatusdesc", eval.StatusDescription),
      ("evalblockedeval", eval.BlockedEval)]
    let pvs : PersistentVolumeStatus :=
      { Message := eval.StatusDescription
        Reason := eval.Status }
    .ok { Name := jobName, Annotations := evalProps, Status := pvs }

/-- Embedding of `PvToJob`: a persistent volume as a Nomad job that holds its
name and ID only. -/
def PvToJob (pv : Option PersistentVolume) : Except String Job :=
  match pv with
  | none => .error "Nil persistent volume provided"
  | some pv =>
    .ok {
      Name := StringToPtr pv.Name
      ID := StringToPtr pv.Name
      Region := none
      JobType := none
      Priority := none
      Datacenters := []
      Constraints := []
      TaskGroups := []
      Meta := none
      Status := none
      StatusDescription := none }

/-- Embedding of `JobToPv`: a Nomad job as a persistent volume. The function
reads through the pointers `job.Name`, `job.StatusDescription` and `job.Status`
without testing them; reading through a nil one is a panic. -/
def JobToPv (job : Option Job) : Outcome PersistentVolume :=
  match job with
  | none => .error "Nil job provided"
  | some job =>
    match job.Name with
    | none => .panic
    | some name =>
      match job.StatusDescription with
      | none => .panic
      | some statusDescription =>
        match job.Status with
        | none => .panic
        | some status =>
          let pvs : PersistentVolumeStatus :=
            { Message := statusDescription
              Reason := status }
          .ok { Name := name
                Annotations := if status = JobStatusRunning then job.Meta else none
                Status := pvs }

/-! ## Vocabulary of the statements -/

/-- The eight label keys `PvcToJob` reads, in the order in which it checks them. -/
def requiredLabels (K : ApiConsts) : List String :=
  [K.RegionLbl, K.DatacenterLbl, K.JivaFrontEndImageLbl, K.CNTypeLbl,
   K.JivaFrontEndIPLbl, K.JivaBackEndIPLbl, K.CNSubnetLbl, K.CNInterfaceLbl]

/-- The key is absent from the map, or mapped to the empty string. -/
def LabelMissing (m : StrMap) (k : String) : Prop :=
  mapFind m k = none ∨ mapFind m k = some ""

/-- The key is present in the map and mapped to a string that is not empty. -/
def LabelSet (m : StrMap) (k : String) : Prop :=
  mapFind m k ≠ none ∧ mapFind m k ≠ some ""

/-- A valid claim: its name is not empty and each of the eight required labels
is present and not empty. -/
def ValidClaim (K : ApiConsts) (pvc : PersistentVolumeClaim) : Prop :=
  pvc.Name ≠ "" ∧ ∀ k ∈ requiredLabels K, LabelSet pvc.Labels k

instance (m : StrMap) (k : String) : Decidable (LabelMissing m k) := by
  unfold LabelMissing; infer_instance

instance (m : StrMap) (k : String) : Decidable (LabelSet m k) := by
  unfold LabelSet; infer_instance

instance (K : ApiConsts) (pvc : PersistentVolumeClaim) : Decidable (ValidClaim K pvc) := by
  unfold ValidClaim; infer_instance

/-- Example values for the constants of `v1` and `v1jiva`, used to evaluate
the functions on concrete claims. -/
def sampleConsts : ApiConsts :=
  { RegionLbl := "region"
    DatacenterLbl := "dc"
    JivaFrontEndImageLbl := "feImage"
    CNTypeLbl := "cnType"
    JivaFrontEndIPLbl := "feIP"
    JivaBackEndIPLbl := "beIP"
    CNSubnetLbl := "subnet"
    CNInterfaceLbl := "iface"
    JivaIscsiTargetPortalPort := "3260"
    JivaIqnFormatPrefix := "iqn.2016-09.com.openebs.jiva" }

/-- The labels of the claim `vol1` of the end-to-end example. -/
def sampleLabels : List (String × String) :=
  [("region", "us-east"), ("dc", "dc1"), ("feImage", "v1"), ("cnType", "flat"),
   ("feIP", "10.0.0.5"), ("beIP", "10.0.0.6"), ("subnet", "10.0.0.0/24"), ("iface", "eth0")]

/-- The claim `vol1` of the end-to-end example. -/
def sampleClaim : PersistentVolumeClaim :=
  { Name := "vol1", Labels := some sampleLabels }

/-- The ten tests `PvcToJob` runs on a claim that is not nil, each with its own
error, in front of a result `r`. -/
def checksThen (K : ApiConsts) (p : PersistentVolumeClaim) (r : Except String Job) :
    Except String Job :=
  if p.Name = "" then .error "Missing name in persistent volume claim"
  else if p.Labels = none then .error "Missing labels in persistent volume claim"
  else if mapIndex p.Labels K.RegionLbl = "" then
    .error "Missing region in persistent volume claim"
  else if mapIndex p.Labels K.DatacenterLbl = "" then
    .error "Missing datacenter in persistent volume claim"
  else if mapIndex p.Labels K.JivaFrontEndImageLbl = "" then
    .error "Missing jiva fe image version in persistent volume claim"
  else if mapIndex p.Labels K.CNTypeLbl = "" then
    .error "Missing cn type in persistent volume claim"
  else if mapIndex p.Labels K.JivaFrontEndIPLbl = "" then
    .error "Missing jiva fe ip in persistent volume claim"
  else if mapIndex p.Labels K.JivaBackEndIPLbl = "" then
    .error "Missing jiva be ip in persistent volume claim"
  else if mapIndex p.Labels K.CNSubnetLbl = "" then
    .error "Missing cn subnet in persistent volume claim"
  else if mapIndex p.Labels K.CNInterfaceLbl = "" then
    .error "Missing cn interface in persistent volume claim"
  else r

/-- The eleven checks of `PvcToJob` in the order of the specification (nil claim,
empty name, nil label map, then the eight labels), each with the message of
its error. A check on a field of the claim does not fire on the nil claim. -/
def pvcChecks (K : ApiConsts) : List ((Option PersistentVolumeClaim → Bool) × String) :=
  [ (fun c => c.isNone, "Nil persistent volume claim provided"),
    (fun c => c.any (fun p => p.Name = ""), "Missing name in persistent volume claim"),
    (fun c => c.any (fun p => p.Labels = none), "Missing labels in persistent volume claim"),
    (fun c => c.any (fun p => mapIndex p.Labels K.RegionLbl = ""),
      "Missing region in persistent volume claim"),
    (fun c => c.any (fun p => mapIndex p.Labels K.DatacenterLbl = ""),
      "Missing datacenter in persistent volume claim"),
    (fun c => c.any (fun p => mapIndex p.Labels K.JivaFrontEndImageLbl = ""),
      "Missing jiva fe image version in persistent volume claim"),
    (fun c => c.any (fun p => mapIndex p.Labels K.CNTypeLbl = ""),
      "Missing cn type in persistent volume claim"),
    (fun c => c.any (fun p => mapIndex p.Labels K.JivaFrontEndIPLbl = ""),
      "Missing jiva fe ip in persistent volume claim"),
    (fun c => c.any (fun p => mapIndex p.Labels K.JivaBackEndIPLbl = ""),
      "Missing jiva be ip in persistent volume claim"),
    (fun c => c.any (fun p => mapIndex p.Labels K.CNSubnetLbl = ""),
      "Missing cn subnet in persistent volume claim"),
    (fun c => c.any (fun p => mapIndex p.Labels K.CNInterfaceLbl = ""),
      "Missing cn interface in persistent volume claim") ]

/-- The message of the first check of `pvcChecks` that fires on the claim, if one does. -/
def firstFailure (K : ApiConsts) (pvc : Option PersistentVolumeClaim) : Option String :=
  ((pvcChecks K).find? (fun c => c.1 pvc)).map (fun c => c.2)

/-- The names the errors of `PvcToJob` give to the eight required labels, in the
order of `requiredLabels`. -/
def labelErrorNames : List String :=
  ["region", "datacenter", "jiva fe image version", "cn type",
   "jiva fe ip", "jiva be ip", "cn subnet", "cn interface"]

/-- The message of the error for a missing field of that name. -/
def missingError (name : String) : String :=
  "Missing " ++ name ++ " in persistent volume claim"

/-- The map is not nil and holds exactly the listed entries, in any order, with
one entry for each key. -/
def HasExactly (m : StrMap) (entries : List (String × String)) : Prop :=
  ∃ l, m = some l ∧ l.Perm entries ∧ (l.map Prod.fst).Nodup

/-- The final segment of a path or URL: what follows its last `/`. -/
def lastPathSegment (s : String) : String :=
  String.mk (s.data.reverse.takeWhile (fun c => c != '/')).reverse

/-- The value of a variable in the environment of the first task of the first
task group of a job (the frontend, in a job of `PvcToJob`). -/
def frontendEnv (j : Job) (k : String) : Option String :=
  match j.TaskGroups with
  | fe :: _ =>
    match fe.Tasks with
    | t :: _ => mapFind t.Env k
    | [] => none
  | [] => none

/-- The value of a variable in the environment of the first task of the second
task group of a job (the backend, in a job of `PvcToJob`). -/
def backendEnv (j : Job) (k : String) : Option String :=
  match j.TaskGroups with
  | _ :: be :: _ =>
    match be.Tasks with
    | t :: _ => mapFind t.Env k
    | [] => none
  | _ => none

/-- A second valid claim, named `vol2`, with other addresses than `vol1`. -/
def sampleClaim2 : PersistentVolumeClaim :=
  { Name := "vol2"
    Labels := some
      [("iface", "eth1"), ("subnet", "10.0.1.0/24"), ("beIP", "10.0.1.6"), ("feIP", "10.0.1.5"),
       ("cnType", "flat"), ("feImage", "v2"), ("dc", "dc2"), ("region", "us-west"),
       ("owner", "ops")] }

/-- An evaluation with a negative priority. -/
def sampleEval : Evaluation :=
  { Priority := -7
    EvalType := "service"
    TriggeredBy := "job-register"
    JobID := "vol1"
    Status := "blocked"
    StatusDescription := "waiting for resources"
    BlockedEval := "e-42" }

/-- A job with all three of name, status and status description set, and with metadata. -/
def sampleJob : Job :=
  { Region := none
    ID := some "vol1"
    Name := some "vol1"
    JobType := none
    Priority := none
    Datacenters := []
    Constraints := []
    TaskGroups := []
    Meta := some [("targetportal", "10.0.0.5:3260")]
    Status := some "running"
    StatusDescription := some "all good" }

/-! ## Lemmas on maps and on valid claims -/

theorem mapIndex_eq_empty_iff (m : StrMap) (k : String) :
    mapIndex m k = "" ↔ LabelMissing m k := by
  unfold mapIndex LabelMissing
  cases h : mapFind m k with
  | none => simp
  | some v => simp

theorem labelSet_iff_mapIndex_ne (m : StrMap) (k : String) :
    LabelSet m k ↔ mapIndex m k ≠ "" := by
  rw [Ne, mapIndex_eq_empty_iff]
  unfold LabelSet LabelMissing
  tauto

theorem labelSet_iff_not_missing (m : StrMap) (k : String) :
    LabelSet m k ↔ ¬ LabelMissing m k := by
  unfold LabelSet LabelMissing
  tauto

/-- What `PvcToJob` tests on a valid claim: none of its eleven checks fires. -/
theorem validClaim_iff_checks (K : ApiConsts) (p : PersistentVolumeClaim) :
    ValidClaim K p ↔
      p.Name ≠ "" ∧ p.Labels ≠ none ∧
      mapIndex p.Labels K.RegionLbl ≠ "" ∧
      mapIndex p.Labels K.DatacenterLbl ≠ "" ∧
      mapIndex p.Labels K.JivaFrontEndImageLbl ≠ "" ∧
      mapIndex p.Labels K.CNTypeLbl ≠ "" ∧
      mapIndex p.Labels K.JivaFrontEndIPLbl ≠ "" ∧
      mapIndex p.Labels K.JivaBackEndIPLbl ≠ "" ∧
      mapIndex p.Labels K.CNSubnetLbl ≠ "" ∧
      mapIndex p.Labels K.CNInterfaceLbl ≠ "" := by
  unfold ValidClaim requiredLabels
  simp only [List.forall_mem_cons, List.not_mem_nil, labelSet_iff_mapIndex_ne]
  constructor
  · rintro ⟨hn, h1, h2, h3, h4, h5, h6, h7, h8, -⟩
    refine ⟨hn, ?_, h1, h2, h3, h4, h5, h6, h7, h8⟩
    intro hnil
    apply h1
    simp [hnil, mapIndex, mapFind]
  · rintro ⟨hn, -, h1, h2, h3, h4, h5, h6, h7, h8⟩
    exact ⟨hn, h1, h2, h3, h4, h5, h6, h7, h8, by simp⟩

/-- The control flow of `PvcToJob` on a claim that is not nil: the ten tests,
then the job. -/
theorem PvcToJob_shape (K : ApiConsts) (p : PersistentVolumeClaim) :
    ∃ j : Job, PvcToJob K (some p) = checksThen K p (.ok j) :=
  ⟨_, rfl⟩

theorem checksThen_of_valid {K : ApiConsts} {p : PersistentVolumeClaim}
    (h : ValidClaim K p) (r : Except String Job) : checksThen K p r = r := by
  obtain ⟨hn, hl, h1, h2, h3, h4, h5, h6, h7, h8⟩ := (validClaim_iff_checks K p).1 h
  unfold checksThen
  rw [if_neg hn, if_neg hl, if_neg h1, if_neg h2, if_neg h3, if_neg h4, if_neg h5,
    if_neg h6, if_neg h7, if_neg h8]

theorem checksThen_of_not_valid {K : ApiConsts} {p : PersistentVolumeClaim}
    (h : ¬ ValidClaim K p) (r : Except String Job) : ∃ e, checksThen K p r = .error e := by
  rw [validClaim_iff_checks] at h
  unfold checksThen
  by_cases hn : p.Name = ""
  · exact ⟨_, if_pos hn⟩
  rw [if_neg hn]
  by_cases hl : p.Labels = none
  · exact ⟨_, if_pos hl⟩
  rw [if_neg hl]
  by_cases h1 : mapIndex p.Labels K.RegionLbl = ""
  · exact ⟨_, if_pos h1⟩
  rw [if_neg h1]
  by_cases h2 : mapIndex p.Labels K.DatacenterLbl = ""
  · exact ⟨_, if_pos h2⟩
  rw [if_neg h2]
  by_cases h3 : mapIndex p.Labels K.JivaFrontEndImageLbl = ""
  · exact ⟨_, if_pos h3⟩
  rw [if_neg h3]
  by_cases h4 : mapIndex p.Labels K.CNTypeLbl = ""
  · exact ⟨_, if_pos h4⟩
  rw [if_neg h4]
  by_cases h5 : mapIndex p.Labels K.JivaFrontEndIPLbl = ""
  · exact ⟨_, if_pos h5⟩
  rw [if_neg h5]
  by_cases h6 : mapIndex p.Labels K.JivaBackEndIPLbl = ""
  · exact ⟨_, if_pos h6⟩
  rw [if_neg h6]
  by_cases h7 : mapIndex p.Labels K.CNSubnetLbl = ""
  · exact ⟨_, if_pos h7⟩
  rw [if_neg h7]
  by_cases h8 : mapIndex p.Labels K.CNInterfaceLbl = ""
  · exact ⟨_, if_pos h8⟩
  exact absurd ⟨hn, hl, h1, h2, h3, h4, h5, h6, h7, h8⟩ h

/-- On a valid claim `PvcToJob` returns the job it builds after its tests. -/
theorem PvcToJob_of_valid {K : ApiConsts} {p : PersistentVolumeClaim} (h : ValidClaim K p)
    (j : Job) (hj : PvcToJob K (some p) = checksThen K p (.ok j)) :
    PvcToJob K (some p) = .ok j := by
  rw [hj, checksThen_of_valid h]

/-- `PvcToJob` returns a job exactly on the valid claims. -/
theorem PvcToJob_isOk_iff (K : ApiConsts) (p : PersistentVolumeClaim) :
    (∃ j, PvcToJob K (some p) = .ok j) ↔ ValidClaim K p := by
  obtain ⟨j0, h0⟩ := PvcToJob_shape K p
  constructor
  · rintro ⟨j, hj⟩
    by_contra hv
    obtain ⟨e, he⟩ := checksThen_of_not_valid hv (.ok j0)
    rw [h0, he] at hj
    cases hj
  · intro hv
    exact ⟨j0, PvcToJob_of_valid hv j0 h0⟩

/-- `PvcToJob` returns an error exactly on the claims that are not valid. -/
theorem PvcToJob_isError_iff (K : ApiConsts) (p : PersistentVolumeClaim) :
    (∃ e, PvcToJob K (some p) = .error e) ↔ ¬ ValidClaim K p := by
  obtain ⟨j0, h0⟩ := PvcToJob_shape K p
  constructor
  · rintro ⟨e, he⟩ hv
    rw [PvcToJob_of_valid hv j0 h0] at he
    cases he
  · intro hv
    obtain ⟨e, he⟩ := checksThen_of_not_valid hv (.ok j0)
    exact ⟨e, by rw [h0, he]⟩

/-- A claim is not valid exactly when its name is empty, its label map is nil or one
of the required labels is missing. -/
theorem not_validClaim_iff (K : ApiConsts) (p : PersistentVolumeClaim) :
    ¬ ValidClaim K p ↔
      (p.Name = "" ∨ p.Labels = none ∨ ∃ k ∈ requiredLabels K, LabelMissing p.Labels k) := by
  unfold ValidClaim
  simp only [labelSet_iff_not_missing]
  constructor
  · intro h
    by_contra hc
    push_neg at hc
    exact h ⟨hc.1, hc.2.2⟩
  · rintro (h | h | ⟨k, hk, hm⟩) ⟨hn, hall⟩
    · exact hn h
    · have := hall K.RegionLbl (by simp [requiredLabels])
      apply this
      left
      simp [h, mapFind]
    · exact hall k hk hm

/-! ## Theorems -/

/-- C1: `PvcToJob` returns an error exactly when the claim is nil, or its name
is empty, or its label map is nil, or one of the eight required labels is
absent or mapped to the empty string; on every other claim it returns a job. -/
theorem C1_PvcToJob_error_iff (K : ApiConsts) (pvc : Option PersistentVolumeClaim) :
    ((∃ e, PvcToJob K pvc = .error e) ↔
      (pvc = none ∨ ∃ p, pvc = some p ∧
        (p.Name = "" ∨ p.Labels = none ∨
          ∃ k ∈ requiredLabels K, LabelMissing p.Labels k))) ∧
    ((∃ j, PvcToJob K pvc = .ok j) ↔
      ¬ (pvc = none ∨ ∃ p, pvc = some p ∧
        (p.Name = "" ∨ p.Labels = none ∨
          ∃ k ∈ requiredLabels K, LabelMissing p.Labels k))) := by
  cases pvc with
  | none => simp [PvcToJob]
  | some p =>
    rw [PvcToJob_isOk_iff, PvcToJob_isError_iff]
    simp only [reduceCtorEq, false_or, Option.some.injEq, exists_eq_left']
    rw [← not_validClaim_iff, not_not]
    exact ⟨Iff.rfl, Iff.rfl⟩

/-- C2: on a valid claim `PvcToJob` succeeds and the job has exactly two task
groups, the frontend `fepod` with the single task `fe1`, then the backend
`bepod` with the single task `be1`, each with count 1. -/
theorem C2_PvcToJob_two_groups (K : ApiConsts) (p : PersistentVolumeClaim)
    (h : ValidClaim K p) :
    ∃ j fe be fet bet, PvcToJob K (some p) = .ok j ∧
      j.TaskGroups = [fe, be] ∧
      fe.Name = some "fepod" ∧ fe.Tasks = [fet] ∧ fet.Name = "fe1" ∧ fe.Count = some 1 ∧
      be.Name = some "bepod" ∧ be.Tasks = [bet] ∧ bet.Name = "be1" ∧ be.Count = some 1 :=
  ⟨_, _, _, _, _, PvcToJob_of_valid h _ rfl, rfl, rfl, rfl, rfl, rfl, rfl, rfl, rfl, rfl⟩

/-- C2 at the claim `vol1` of the end-to-end example. -/
theorem C2_PvcToJob_two_groups_witness :
    ValidClaim sampleConsts sampleClaim ∧
    ∃ j fe be fet bet, PvcToJob sampleConsts (some sampleClaim) = .ok j ∧
      j.TaskGroups = [fe, be] ∧
      fe.Name = some "fepod" ∧ fe.Tasks = [fet] ∧ fet.Name = "fe1" ∧ fe.Count = some 1 ∧
      be.Name = some "bepod" ∧ be.Tasks = [bet] ∧ bet.Name = "be1" ∧ be.Count = some 1 :=
  ⟨by decide, C2_PvcToJob_two_groups sampleConsts sampleClaim (by decide)⟩

/-! ### Reads after `delete` and after an assignment -/

theorem lookup_cons_ite (k a b : String) (l : List (String × String)) :
    List.lookup k ((a, b) :: l) = if k = a then some b else l.lookup k := by
  rw [List.lookup_cons]
  by_cases h : k = a
  · subst h
    simp
  · have hb : (k == a) = false := beq_false_of_ne h
    rw [hb, if_neg h]

theorem lookup_filter_ne (l : List (String × String)) (k k' : String) :
    (l.filter (fun e => e.1 != k)).lookup k' = if k' = k then none else l.lookup k' := by
  induction l with
  | nil => simp
  | cons e l ih =>
    obtain ⟨a, b⟩ := e
    by_cases hak : a = k
    · rw [List.filter_cons_of_neg (by simp [hak]), ih, lookup_cons_ite]
      by_cases hk : k' = k
      · rw [if_pos hk, if_pos hk]
      · rw [if_neg hk, if_neg hk, if_neg (by rw [hak]; exact hk)]
    · rw [List.filter_cons_of_pos (by simp [hak]), lookup_cons_ite, lookup_cons_ite, ih]
      by_cases hk : k' = k
      · rw [if_pos hk, if_neg (by rw [hk]; exact fun h => hak h.symm), if_pos hk]
      · rw [if_neg hk, if_neg hk]

theorem mapIndex_mapDelete (m : StrMap) (k k' : String) :
    mapIndex (mapDelete m k) k' = if k' = k then "" else mapIndex m k' := by
  cases m with
  | none => simp [mapIndex, mapFind, mapDelete]
  | some l =>
    simp only [mapIndex, mapFind, mapDelete, Option.map_some', lookup_filter_ne]
    split_ifs <;> rfl

theorem mapIndex_mapSet (l : List (String × String)) (k v k' : String) :
    mapIndex (mapSet (some l) k v) k' = if k' = k then v else mapIndex (some l) k' := by
  simp only [mapIndex, mapFind, mapSet, Option.map_some', lookup_cons_ite, lookup_filter_ne]
  by_cases hk : k' = k
  · simp [hk]
  · simp [hk]

/-- A valid claim whose label map is replaced by one that reads as empty at one
required key and as before at every other key fails with the error of that key. -/
theorem checksThen_label_cleared {K : ApiConsts} {p : PersistentVolumeClaim}
    (h : ValidClaim K p) (hd : (requiredLabels K).Nodup) (L : StrMap) (k : String)
    (hL : L ≠ none)
    (hidx : ∀ k', mapIndex L k' = if k' = k then "" else mapIndex p.Labels k')
    (r : Except String Job) :
    ∀ kn ∈ (requiredLabels K).zip labelErrorNames, kn.1 = k →
      checksThen K { p with Labels := L } r = .error (missingError kn.2) := by
  obtain ⟨hn, hl, h1, h2, h3, h4, h5, h6, h7, h8⟩ := (validClaim_iff_checks K p).1 h
  simp only [requiredLabels, List.nodup_cons, List.mem_cons, List.mem_singleton,
    List.not_mem_nil, not_or, or_false, not_false_eq_true, List.nodup_nil, and_true] at hd
  obtain ⟨⟨a1, a2, a3, a4, a5, a6, a7⟩, ⟨b2, b3, b4, b5, b6, b7⟩, ⟨c3, c4, c5, c6, c7⟩,
    ⟨d4, d5, d6, d7⟩, ⟨e5, e6, e7⟩, ⟨f6, f7⟩, g7⟩ := hd
  intro kn hkn hk
  subst hk
  simp only [requiredLabels, labelErrorNames, List.zip_cons_cons, List.zip_nil_right,
    List.mem_cons, List.mem_singleton, List.not_mem_nil, or_false] at hkn
  unfold checksThen
  simp only [hidx]
  rcases hkn with rfl | rfl | rfl | rfl | rfl | rfl | rfl | rfl
  all_goals simp [*, missingError]

/-- C3: when the eight label keys are pairwise distinct, deleting one required
label of a valid claim, or setting it to the empty string, makes `PvcToJob`
fail with the error that names that label (and return no job). -/
theorem C3_PvcToJob_missing_label (K : ApiConsts) (p : PersistentVolumeClaim)
    (h : ValidClaim K p) (hd : (requiredLabels K).Nodup) :
    ∀ kn ∈ (requiredLabels K).zip labelErrorNames,
      PvcToJob K (some { p with Labels := mapDelete p.Labels kn.1 })
        = .error (missingError kn.2) ∧
      PvcToJob K (some { p with Labels := mapSet p.Labels kn.1 "" })
        = .error (missingError kn.2) := by
  intro kn hkn
  have hl : p.Labels ≠ none := ((validClaim_iff_checks K p).1 h).2.1
  obtain ⟨l, hlab⟩ := Option.ne_none_iff_exists'.1 hl
  constructor
  · obtain ⟨j0, h0⟩ := PvcToJob_shape K { p with Labels := mapDelete p.Labels kn.1 }
    rw [h0]
    refine checksThen_label_cleared h hd _ kn.1 ?_ (mapIndex_mapDelete _ _) _ kn hkn rfl
    simp [hlab, mapDelete]
  · obtain ⟨j0, h0⟩ := PvcToJob_shape K { p with Labels := mapSet p.Labels kn.1 "" }
    rw [h0]
    refine checksThen_label_cleared h hd _ kn.1 ?_ ?_ _ kn hkn rfl
    · simp [hlab, mapSet]
    · intro k'
      rw [hlab, mapIndex_mapSet]

/-- C3 at the claim `vol1` of the end-to-end example, for the label of the region. -/
theorem C3_PvcToJob_missing_label_witness :
    ValidClaim sampleConsts sampleClaim ∧ (requiredLabels sampleConsts).Nodup ∧
    PvcToJob sampleConsts (some { sampleClaim with Labels := mapDelete sampleClaim.Labels "region" })
      = .error "Missing region in persistent volume claim" ∧
    PvcToJob sampleConsts (some { sampleClaim with Labels := mapSet sampleClaim.Labels "region" "" })
      = .error "Missing region in persistent volume claim" :=
  ⟨by decide, by decide,
    C3_PvcToJob_missing_label sampleConsts sampleClaim (by decide) (by decide)
      ("region", "region") (by decide)⟩

/-- The tests of `PvcToJob` are the checks of `pvcChecks`, run in that order. -/
theorem checksThen_eq_firstFailure (K : ApiConsts) (p : PersistentVolumeClaim)
    (r : Except String Job) :
    checksThen K p r =
      match firstFailure K (some p) with
      | some e => .error e
      | none => r := by
  unfold checksThen firstFailure pvcChecks
  by_cases hn : p.Name = ""
  · simp [List.find?, hn]
  by_cases hl : p.Labels = none
  · simp [List.find?, hn, hl]
  by_cases h1 : mapIndex p.Labels K.RegionLbl = ""
  · simp [List.find?, hn, hl, h1]
  by_cases h2 : mapIndex p.Labels K.DatacenterLbl = ""
  · simp [List.find?, hn, hl, h1, h2]
  by_cases h3 : mapIndex p.Labels K.JivaFrontEndImageLbl = ""
  · simp [List.find?, hn, hl, h1, h2, h3]
  by_cases h4 : mapIndex p.Labels K.CNTypeLbl = ""
  · simp [List.find?, hn, hl, h1, h2, h3, h4]
  by_cases h5 : mapIndex p.Labels K.JivaFrontEndIPLbl = ""
  · simp [List.find?, hn, hl, h1, h2, h3, h4, h5]
  by_cases h6 : mapIndex p.Labels K.JivaBackEndIPLbl = ""
  · simp [List.find?, hn, hl, h1, h2, h3, h4, h5, h6]
  by_cases h7 : mapIndex p.Labels K.CNSubnetLbl = ""
  · simp [List.find?, hn, hl, h1, h2, h3, h4, h5, h6, h7]
  by_cases h8 : mapIndex p.Labels K.CNInterfaceLbl = ""
  · simp [List.find?, hn, hl, h1, h2, h3, h4, h5, h6, h7, h8]
  simp [List.find?, hn, hl, h1, h2, h3, h4, h5, h6, h7, h8]

/-- C4: a failing `PvcToJob` returns the error of the first check that fires, in
the order nil claim, empty name, nil label map, region, datacenter, frontend
image, cn type, frontend IP, backend IP, subnet, interface (and it succeeds
when none fires); a claim with an empty name fails with the missing-name error
whatever its labels; the eleven messages are pairwise distinct. -/
theorem C4_PvcToJob_first_failing_check (K : ApiConsts) :
    (∀ pvc e, PvcToJob K pvc = .error e ↔ firstFailure K pvc = some e) ∧
    (∀ pvc, (∃ j, PvcToJob K pvc = .ok j) ↔ firstFailure K pvc = none) ∧
    (∀ labels, PvcToJob K (some { Name := "", Labels := labels })
      = .error "Missing name in persistent volume claim") ∧
    ((pvcChecks K).map (fun c => c.2)).Nodup ∧ (pvcChecks K).length = 11 := by
  refine ⟨?_, ?_, ?_, ?_, ?_⟩
  · intro pvc e
    cases pvc with
    | none => simp [PvcToJob, firstFailure, pvcChecks, List.find?, eq_comm]
    | some p =>
      obtain ⟨j0, h0⟩ := PvcToJob_shape K p
      rw [h0, checksThen_eq_firstFailure]
      cases firstFailure K (some p) <;> simp [eq_comm]
  · intro pvc
    cases pvc with
    | none => simp [PvcToJob, firstFailure, pvcChecks, List.find?]
    | some p =>
      obtain ⟨j0, h0⟩ := PvcToJob_shape K p
      rw [h0, checksThen_eq_firstFailure]
      cases firstFailure K (some p) <;> simp
  · intro labels
    rfl
  · simp [pvcChecks]
  · rfl

/-! ### Reading a map whose entries are known -/

theorem lookup_eq_some_iff_mem (l : List (String × String)) (hnd : (l.map Prod.fst).Nodup)
    (k v : String) : l.lookup k = some v ↔ (k, v) ∈ l := by
  induction l with
  | nil => simp
  | cons e l ih =>
    obtain ⟨a, b⟩ := e
    rw [List.map_cons, List.nodup_cons] at hnd
    rw [lookup_cons_ite, List.mem_cons]
    by_cases hk : k = a
    · subst hk
      rw [if_pos rfl]
      constructor
      · intro hv
        left
        rw [Option.some.inj hv]
      · rintro (hv | hv)
        · rw [(Prod.mk.inj hv).2]
        · exact absurd (List.mem_map_of_mem Prod.fst hv) hnd.1
    · rw [if_neg hk, ih hnd.2]
      constructor
      · exact fun hv => Or.inr hv
      · rintro (hv | hv)
        · exact absurd (Prod.mk.inj hv).1 hk
        · exact hv

/-- A map that holds exactly the listed entries reads, at each key, the value
listed for it, and nothing at any other key. -/
theorem HasExactly.mapFind_eq_some_iff {m : StrMap} {entries : List (String × String)}
    (h : HasExactly m entries) (k v : String) :
    mapFind m k = some v ↔ (k, v) ∈ entries := by
  obtain ⟨l, rfl, hp, hnd⟩ := h
  simp only [mapFind]
  rw [lookup_eq_some_iff_mem l hnd, hp.mem_iff]

/-! ### The job of a valid claim, field by field -/

/-- C5: the metadata of the job of a valid claim has exactly two entries,
`targetportal` = frontend IP label, `:`, the iSCSI target portal port, and
`iqn` = the IQN prefix, `:`, the claim name. -/
theorem C5_PvcToJob_meta (K : ApiConsts) (p : PersistentVolumeClaim) (h : ValidClaim K p) :
    ∃ j, PvcToJob K (some p) = .ok j ∧
      HasExactly j.Meta
        [("targetportal", mapIndex p.Labels K.JivaFrontEndIPLbl ++ ":" ++ K.JivaIscsiTargetPortalPort),
         ("iqn", K.JivaIqnFormatPrefix ++ ":" ++ p.Name)] ∧
      mapFind j.Meta "targetportal" =
        some (mapIndex p.Labels K.JivaFrontEndIPLbl ++ ":" ++ K.JivaIscsiTargetPortalPort) ∧
      mapFind j.Meta "iqn" = some (K.JivaIqnFormatPrefix ++ ":" ++ p.Name) ∧
      ∀ k, k ≠ "targetportal" → k ≠ "iqn" → mapFind j.Meta k = none := by
  refine ⟨_, PvcToJob_of_valid h _ rfl, ⟨_, rfl, List.Perm.refl _, by simp⟩, rfl, rfl, ?_⟩
  intro k h1 h2
  simp only [mapFind, lookup_cons_ite, if_neg h1, if_neg h2, List.lookup_nil]

/-- C5 at the claim `vol1` of the end-to-end example, whose frontend IP is `10.0.0.5`. -/
theorem C5_PvcToJob_meta_witness :
    ValidClaim sampleConsts sampleClaim ∧
    ∃ j, PvcToJob sampleConsts (some sampleClaim) = .ok j ∧
      HasExactly j.Meta
        [("targetportal", "10.0.0.5:3260"), ("iqn", "iqn.2016-09.com.openebs.jiva:vol1")] ∧
      mapFind j.Meta "targetportal" = some "10.0.0.5:3260" ∧
      mapFind j.Meta "iqn" = some "iqn.2016-09.com.openebs.jiva:vol1" ∧
      ∀ k, k ≠ "targetportal" → k ≠ "iqn" → mapFind j.Meta k = none :=
  ⟨by decide, C5_PvcToJob_meta sampleConsts sampleClaim (by decide)⟩

theorem ctl_name_eq (n : String) : n ++ "-" ++ ("fe" ++ "pod") ++ "-" ++ "fe1" = n ++ "-fepod-fe1" := by
  rw [String.append_assoc, String.append_assoc, String.append_assoc]
  rfl

theorem rep_name_eq (n : String) : n ++ "-" ++ ("be" ++ "pod") ++ "-" ++ "be1" = n ++ "-bepod-be1" := by
  rw [String.append_assoc, String.append_assoc, String.append_assoc]
  rfl

/-- C6: the environment of the frontend task of the job of a valid claim has
exactly seven entries: `JIVA_CTL_NAME` = claim name, `-`, frontend group name,
`-`, frontend task name (the name followed by `-fepod-fe1`), `JIVA_CTL_VERSION`
= frontend image label, `JIVA_CTL_VOLNAME` = claim name, `JIVA_CTL_VOLSIZE` =
`5g`, `JIVA_CTL_IP` = frontend IP label, `JIVA_CTL_SUBNET` = subnet label,
`JIVA_CTL_IFACE` = interface label. -/
theorem C6_PvcToJob_frontend_env (K : ApiConsts) (p : PersistentVolumeClaim)
    (h : ValidClaim K p) :
    ∃ j fe be fet feName, PvcToJob K (some p) = .ok j ∧
      j.TaskGroups = [fe, be] ∧ fe.Tasks = [fet] ∧ fe.Name = some feName ∧
      HasExactly fet.Env
        [("JIVA_CTL_NAME", p.Name ++ "-fepod-fe1"),
         ("JIVA_CTL_VERSION", mapIndex p.Labels K.JivaFrontEndImageLbl),
         ("JIVA_CTL_VOLNAME", p.Name),
         ("JIVA_CTL_VOLSIZE", "5g"),
         ("JIVA_CTL_IP", mapIndex p.Labels K.JivaFrontEndIPLbl),
         ("JIVA_CTL_SUBNET", mapIndex p.Labels K.CNSubnetLbl),
         ("JIVA_CTL_IFACE", mapIndex p.Labels K.CNInterfaceLbl)] ∧
      mapFind fet.Env "JIVA_CTL_NAME" = some (p.Name ++ "-" ++ feName ++ "-" ++ fet.Name) := by
  refine ⟨_, _, _, _, _, PvcToJob_of_valid h _ rfl, rfl, rfl, rfl, ⟨_, rfl, ?_, by simp⟩, rfl⟩
  rw [ctl_name_eq]

/-- C6 at the claim `vol1` of the end-to-end example. -/
theorem C6_PvcToJob_frontend_env_witness :
    ValidClaim sampleConsts sampleClaim ∧
    ∃ j fe be fet feName, PvcToJob sampleConsts (some sampleClaim) = .ok j ∧
      j.TaskGroups = [fe, be] ∧ fe.Tasks = [fet] ∧ fe.Name = some feName ∧
      HasExactly fet.Env
        [("JIVA_CTL_NAME", "vol1-fepod-fe1"),
         ("JIVA_CTL_VERSION", "v1"),
         ("JIVA_CTL_VOLNAME", "vol1"),
         ("JIVA_CTL_VOLSIZE", "5g"),
         ("JIVA_CTL_IP", "10.0.0.5"),
         ("JIVA_CTL_SUBNET", "10.0.0.0/24"),
         ("JIVA_CTL_IFACE", "eth0")] ∧
      mapFind fet.Env "JIVA_CTL_NAME" = some ("vol1" ++ "-" ++ feName ++ "-" ++ fet.Name) :=
  ⟨by decide, C6_PvcToJob_frontend_env sampleConsts sampleClaim (by decide)⟩

/-- C7: the environment of the backend task of the job of a valid claim has
exactly ten entries: `JIVA_REP_NAME` = claim name followed by `-bepod-be1`,
`JIVA_CTL_IP` = frontend IP label, `JIVA_REP_IP` = backend IP label,
`JIVA_REP_VOLNAME` = claim name, `JIVA_REP_VOLSIZE` = `5g`, `JIVA_REP_VOLSTORE`
= `/tmp/jiva/`, claim name, backend group name, `/`, backend task name,
`JIVA_REP_VERSION` = frontend image label, `JIVA_REP_NETWORK` = network type
label, `JIVA_REP_IFACE` = interface label, `JIVA_REP_SUBNET` = subnet label. -/
theorem C7_PvcToJob_backend_env (K : ApiConsts) (p : PersistentVolumeClaim)
    (h : ValidClaim K p) :
    ∃ j fe be bet beName, PvcToJob K (some p) = .ok j ∧
      j.TaskGroups = [fe, be] ∧ be.Tasks = [bet] ∧ be.Name = some beName ∧
      HasExactly bet.Env
        [("JIVA_REP_NAME", p.Name ++ "-bepod-be1"),
         ("JIVA_CTL_IP", mapIndex p.Labels K.JivaFrontEndIPLbl),
         ("JIVA_REP_VOLNAME", p.Name),
         ("JIVA_REP_VOLSIZE", "5g"),
         ("JIVA_REP_VOLSTORE", "/tmp/jiva/" ++ p.Name ++ beName ++ "/" ++ bet.Name),
         ("JIVA_REP_VERSION", mapIndex p.Labels K.JivaFrontEndImageLbl),
         ("JIVA_REP_NETWORK", mapIndex p.Labels K.CNTypeLbl),
         ("JIVA_REP_IFACE", mapIndex p.Labels K.CNInterfaceLbl),
         ("JIVA_REP_IP", mapIndex p.Labels K.JivaBackEndIPLbl),
         ("JIVA_REP_SUBNET", mapIndex p.Labels K.CNSubnetLbl)] ∧
      beName = "bepod" ∧ bet.Name = "be1" := by
  refine ⟨_, _, _, _, _, PvcToJob_of_valid h _ rfl, rfl, rfl, rfl, ⟨_, rfl, ?_, by simp⟩,
    rfl, rfl⟩
  rw [rep_name_eq]

/-- C7 at the claim `vol1` of the end-to-end example. -/
theorem C7_PvcToJob_backend_env_witness :
    ValidClaim sampleConsts sampleClaim ∧
    ∃ j fe be bet beName, PvcToJob sampleConsts (some sampleClaim) = .ok j ∧
      j.TaskGroups = [fe, be] ∧ be.Tasks = [bet] ∧ be.Name = some beName ∧
      HasExactly bet.Env
        [("JIVA_REP_NAME", "vol1-bepod-be1"),
         ("JIVA_CTL_IP", "10.0.0.5"),
         ("JIVA_REP_VOLNAME", "vol1"),
         ("JIVA_REP_VOLSIZE", "5g"),
         ("JIVA_REP_VOLSTORE", "/tmp/jiva/" ++ "vol1" ++ beName ++ "/" ++ bet.Name),
         ("JIVA_REP_VERSION", "v1"),
         ("JIVA_REP_NETWORK", "flat"),
         ("JIVA_REP_IFACE", "eth0"),
         ("JIVA_REP_IP", "10.0.0.6"),
         ("JIVA_REP_SUBNET", "10.0.0.0/24")] ∧
      beName = "bepod" ∧ bet.Name = "be1" :=
  ⟨by decide, C7_PvcToJob_backend_env sampleConsts sampleClaim (by decide)⟩

/-- C8: the job of a valid claim has `Name` and `ID` equal to the claim name,
`Region` equal to the region label, `Datacenters` holding the datacenter label
alone, `Priority` 50 and the single constraint that the kernel name is linux. -/
theorem C8_PvcToJob_identity_and_placement (K : ApiConsts) (p : PersistentVolumeClaim)
    (h : ValidClaim K p) :
    ∃ j, PvcToJob K (some p) = .ok j ∧
      j.Name = some p.Name ∧ j.ID = some p.Name ∧
      j.Region = some (mapIndex p.Labels K.RegionLbl) ∧
      j.Region = mapFind p.Labels K.RegionLbl ∧
      j.Datacenters = [mapIndex p.Labels K.DatacenterLbl] ∧
      mapFind p.Labels K.DatacenterLbl = some (mapIndex p.Labels K.DatacenterLbl) ∧
      j.Priority = some 50 ∧
      j.Constraints =
        [{ LTarget := "$\x7battr.kernel.name\x7d", Operand := "=", RTarget := "linux" }] := by
  have hv := h.2
  have h1 : LabelSet p.Labels K.RegionLbl := hv _ (by simp [requiredLabels])
  have h2 : LabelSet p.Labels K.DatacenterLbl := hv _ (by simp [requiredLabels])
  have key : ∀ k, LabelSet p.Labels k → mapFind p.Labels k = some (mapIndex p.Labels k) := by
    intro k hk
    unfold mapIndex
    cases hf : mapFind p.Labels k with
    | none => exact absurd hf hk.1
    | some v => rfl
  refine ⟨_, PvcToJob_of_valid h _ rfl, rfl, rfl, rfl, ?_, rfl, key _ h2, rfl, rfl⟩
  exact (key _ h1).symm

/-- C8 at the claim `vol1` of the end-to-end example. -/
theorem C8_PvcToJob_identity_and_placement_witness :
    ValidClaim sampleConsts sampleClaim ∧
    ∃ j, PvcToJob sampleConsts (some sampleClaim) = .ok j ∧
      j.Name = some "vol1" ∧ j.ID = some "vol1" ∧
      j.Region = some "us-east" ∧
      j.Region = mapFind sampleClaim.Labels "region" ∧
      j.Datacenters = ["dc1"] ∧
      mapFind sampleClaim.Labels "dc" = some "dc1" ∧
      j.Priority = some 50 ∧
      j.Constraints =
        [{ LTarget := "$\x7battr.kernel.name\x7d", Operand := "=", RTarget := "linux" }] :=
  ⟨by decide, C8_PvcToJob_identity_and_placement sampleConsts sampleClaim (by decide)⟩

/-- C9: both task groups of the job of a valid claim have the same defaults,
whatever the claim: a restart policy of 3 attempts in 5 minutes with a delay of
25 seconds and mode `delay`, and a single task that reserves CPU 500, 256 MB of
memory and one network resource of 400 Mbit, with logs rotated over 3 files of
1 MB. -/
theorem C9_PvcToJob_fixed_defaults (K : ApiConsts) (p : PersistentVolumeClaim)
    (h : ValidClaim K p) :
    ∃ j, PvcToJob K (some p) = .ok j ∧ j.TaskGroups.length = 2 ∧
      ∀ g ∈ j.TaskGroups,
        g.RestartPolicy = some
          { Attempts := some 3, Interval := some (5 * Minute), Delay := some (25 * Second),
            Mode := some "delay" } ∧
        5 * Minute = 300000000000 ∧ 25 * Second = 25000000000 ∧
        ∃ t, g.Tasks = [t] ∧
          t.Resources = some
            { CPU := some 500, MemoryMB := some 256, Networks := [{ MBits := some 400 }] } ∧
          t.LogConfig = some { MaxFiles := some 3, MaxFileSizeMB := some 1 } := by
  refine ⟨_, PvcToJob_of_valid h _ rfl, rfl, ?_⟩
  intro g hg
  simp only [List.mem_cons, List.mem_singleton, List.not_mem_nil, or_false] at hg
  rcases hg with rfl | rfl
  · exact ⟨rfl, by decide, by decide, _, rfl, rfl, rfl⟩
  · exact ⟨rfl, by decide, by decide, _, rfl, rfl, rfl⟩

/-- C9 at the claim `vol1` of the end-to-end example. -/
theorem C9_PvcToJob_fixed_defaults_witness :
    ValidClaim sampleConsts sampleClaim ∧
    ∃ j, PvcToJob sampleConsts (some sampleClaim) = .ok j ∧ j.TaskGroups.length = 2 ∧
      ∀ g ∈ j.TaskGroups,
        g.RestartPolicy = some
          { Attempts := some 3, Interval := some (5 * Minute), Delay := some (25 * Second),
            Mode := some "delay" } ∧
        5 * Minute = 300000000000 ∧ 25 * Second = 25000000000 ∧
        ∃ t, g.Tasks = [t] ∧
          t.Resources = some
            { CPU := some 500, MemoryMB := some 256, Networks := [{ MBits := some 400 }] } ∧
          t.LogConfig = some { MaxFiles := some 3, MaxFileSizeMB := some 1 } :=
  ⟨by decide, C9_PvcToJob_fixed_defaults sampleConsts sampleClaim (by decide)⟩

theorem lastPathSegment_ctl :
    lastPathSegment
      "https://raw.githubusercontent.com/openebs/jiva/master/scripts/launch-jiva-ctl-with-ip"
      = "launch-jiva-ctl-with-ip" := by
  decide

theorem lastPathSegment_rep :
    lastPathSegment
      "https://raw.githubusercontent.com/openebs/jiva/master/scripts/launch-jiva-rep-with-ip"
      = "launch-jiva-rep-with-ip" := by
  decide

/-- C10: each of the two tasks of the job of a valid claim runs under the driver
`raw_exec` and declares exactly one artifact, fetched to `local/`, and its
command is the final path segment of the URL of that artifact:
`launch-jiva-ctl-with-ip` for the frontend, `launch-jiva-rep-with-ip` for the
backend. -/
theorem C10_PvcToJob_driver_and_artifact (K : ApiConsts) (p : PersistentVolumeClaim)
    (h : ValidClaim K p) :
    ∃ j fe be fet bet, PvcToJob K (some p) = .ok j ∧
      j.TaskGroups = [fe, be] ∧ fe.Tasks = [fet] ∧ be.Tasks = [bet] ∧
      (∀ t ∈ [fet, bet], t.Driver = "raw_exec" ∧
        ∃ a url, t.Artifacts = [a] ∧ a.RelativeDest = some "local/" ∧
          a.GetterSource = some url ∧ t.Config = [("command", lastPathSegment url)]) ∧
      fet.Config = [("command", "launch-jiva-ctl-with-ip")] ∧
      bet.Config = [("command", "launch-jiva-rep-with-ip")] := by
  refine ⟨_, _, _, _, _, PvcToJob_of_valid h _ rfl, rfl, rfl, rfl, ?_, rfl, rfl⟩
  intro t ht
  simp only [List.mem_cons, List.mem_singleton, List.not_mem_nil, or_false] at ht
  rcases ht with rfl | rfl
  · refine ⟨rfl, _, _, rfl, rfl, rfl, ?_⟩
    rw [lastPathSegment_ctl]
  · refine ⟨rfl, _, _, rfl, rfl, rfl, ?_⟩
    rw [lastPathSegment_rep]

/-- C10 at the claim `vol1` of the end-to-end example. -/
theorem C10_PvcToJob_driver_and_artifact_witness :
    ValidClaim sampleConsts sampleClaim ∧
    ∃ j fe be fet bet, PvcToJob sampleConsts (some sampleClaim) = .ok j ∧
      j.TaskGroups = [fe, be] ∧ fe.Tasks = [fet] ∧ be.Tasks = [bet] ∧
      (∀ t ∈ [fet, bet], t.Driver = "raw_exec" ∧
        ∃ a url, t.Artifacts = [a] ∧ a.RelativeDest = some "local/" ∧
          a.GetterSource = some url ∧ t.Config = [("command", lastPathSegment url)]) ∧
      fet.Config = [("command", "launch-jiva-ctl-with-ip")] ∧
      bet.Config = [("command", "launch-jiva-rep-with-ip")] :=
  ⟨by decide, C10_PvcToJob_driver_and_artifact sampleConsts sampleClaim (by decide)⟩

/-! ### From evaluations and jobs back to volumes -/

/-- C11: `JobEvalToPv` fails exactly when the evaluation is nil. On any other
evaluation, for any job name (the empty one too), it returns a volume named
after the job, whose message and reason are the status description and the
status of the evaluation, and whose annotations hold exactly the seven keys
`evalpriority`, `evaltype`, `evaltrigger`, `evaljob`, `evalstatus`,
`evalstatusdesc`, `evalblockedeval`: the first is the priority in decimal, with
a leading `-` when it is negative, the others are the fields unchanged. -/
theorem C11_JobEvalToPv_projection (jobName : String) :
    (∀ eval, (∃ e, JobEvalToPv jobName eval = .error e) ↔ eval = none) ∧
    ∀ ev : Evaluation, ∃ pv, JobEvalToPv jobName (some ev) = .ok pv ∧
      pv.Name = jobName ∧
      pv.Status.Message = ev.StatusDescription ∧ pv.Status.Reason = ev.Status ∧
      HasExactly pv.Annotations
        [("evalpriority", Itoa ev.Priority),
         ("evaltype", ev.EvalType),
         ("evaltrigger", ev.TriggeredBy),
         ("evaljob", ev.JobID),
         ("evalstatus", ev.Status),
         ("evalstatusdesc", ev.StatusDescription),
         ("evalblockedeval", ev.BlockedEval)] ∧
      (0 ≤ ev.Priority →
        mapFind pv.Annotations "evalpriority" = some (Nat.repr ev.Priority.toNat)) ∧
      (ev.Priority < 0 →
        mapFind pv.Annotations "evalpriority" = some ("-" ++ Nat.repr (-ev.Priority).toNat)) := by
  constructor
  · intro eval
    cases eval with
    | none => simp [JobEvalToPv]
    | some ev => simp [JobEvalToPv]
  · intro ev
    refine ⟨_, rfl, rfl, rfl, rfl, ⟨_, rfl, List.Perm.refl _, by simp⟩, ?_, ?_⟩
    · intro h
      obtain ⟨n, hn⟩ := Int.eq_ofNat_of_zero_le h
      simp [mapFind, lookup_cons_ite, hn, Itoa]
    · intro h
      obtain ⟨n, hn⟩ := Int.eq_negSucc_of_lt_zero h
      simp only [mapFind, lookup_cons_ite, if_true, hn, Itoa, Int.neg_negSucc]
      rfl

/-- C11 at an evaluation of priority -7 and at the empty job name. -/
theorem C11_JobEvalToPv_projection_witness :
    ∃ pv, JobEvalToPv "" (some sampleEval) = .ok pv ∧
      pv.Name = "" ∧
      pv.Status.Message = "waiting for resources" ∧ pv.Status.Reason = "blocked" ∧
      HasExactly pv.Annotations
        [("evalpriority", "-7"),
         ("evaltype", "service"),
         ("evaltrigger", "job-register"),
         ("evaljob", "vol1"),
         ("evalstatus", "blocked"),
         ("evalstatusdesc", "waiting for resources"),
         ("evalblockedeval", "e-42")] ∧
      (0 ≤ sampleEval.Priority →
        mapFind pv.Annotations "evalpriority" = some (Nat.repr sampleEval.Priority.toNat)) ∧
      (sampleEval.Priority < 0 →
        mapFind pv.Annotations "evalpriority"
          = some ("-" ++ Nat.repr (-sampleEval.Priority).toNat)) :=
  (C11_JobEvalToPv_projection "").2 sampleEval

/-- C12: on a job whose name, status and status description are set, `JobToPv`
returns a volume named after the job, whose message and reason are the status
description and the status of the job; its annotations are the metadata of the
job when the status is `running`, and are unset for every other status,
whatever the metadata. -/
theorem C12_JobToPv_projection (job : Job) (name status desc : String)
    (hn : job.Name = some name) (hs : job.Status = some status)
    (hd : job.StatusDescription = some desc) :
    ∃ pv, JobToPv (some job) = .ok pv ∧
      pv.Name = name ∧ pv.Status.Message = desc ∧ pv.Status.Reason = status ∧
      (status = "running" → pv.Annotations = job.Meta) ∧
      (status ≠ "running" → pv.Annotations = none) ∧
      (pv.Annotations = job.Meta ↔ (status = "running" ∨ job.Meta = none)) := by
  unfold JobToPv
  simp only [hn, hs, hd]
  refine ⟨_, rfl, rfl, rfl, rfl, ?_, ?_, ?_⟩
  · intro h
    simp only [JobStatusRunning, if_pos h]
  · intro h
    simp only [JobStatusRunning, if_neg h]
  · by_cases h : status = "running"
    · simp [JobStatusRunning, h]
    · simp only [JobStatusRunning, if_neg h, h, false_or]
      exact eq_comm

/-- C12 at a running job and at the same job once it is pending. -/
theorem C12_JobToPv_projection_witness :
    (∃ pv, JobToPv (some sampleJob) = .ok pv ∧
      pv.Name = "vol1" ∧ pv.Status.Message = "all good" ∧ pv.Status.Reason = "running" ∧
      ("running" = "running" → pv.Annotations = sampleJob.Meta) ∧
      ("running" ≠ "running" → pv.Annotations = none) ∧
      (pv.Annotations = sampleJob.Meta ↔ ("running" = "running" ∨ sampleJob.Meta = none))) ∧
    (∃ pv, JobToPv (some { sampleJob with Status := some "pending" }) = .ok pv ∧
      pv.Name = "vol1" ∧ pv.Status.Message = "all good" ∧ pv.Status.Reason = "pending" ∧
      ("pending" = "running" → pv.Annotations = sampleJob.Meta) ∧
      ("pending" ≠ "running" → pv.Annotations = none) ∧
      (pv.Annotations = sampleJob.Meta ↔ ("pending" = "running" ∨ sampleJob.Meta = none))) :=
  ⟨C12_JobToPv_projection sampleJob "vol1" "running" "all good" rfl rfl rfl,
   C12_JobToPv_projection { sampleJob with Status := some "pending" } "vol1" "pending" "all good"
     rfl rfl rfl⟩

/-- C13: `JobToPv` ends in one of three ways: an error on the nil job; a panic,
with no error returned, on a job of which the name, the status or the status
description is nil; a volume and no error on a job with all three set. It
returns no error on a job that is not nil. -/
theorem C13_JobToPv_outcomes :
    JobToPv none = .error "Nil job provided" ∧
    ∀ job : Job,
      (JobToPv (some job) = .panic ↔
        (job.Name = none ∨ job.Status = none ∨ job.StatusDescription = none)) ∧
      ((∃ pv, JobToPv (some job) = .ok pv) ↔
        (job.Name ≠ none ∧ job.Status ≠ none ∧ job.StatusDescription ≠ none)) ∧
      (∀ e, JobToPv (some job) ≠ .error e) := by
  refine ⟨rfl, ?_⟩
  intro job
  obtain ⟨region, id, name, jobType, priority, dcs, constraints, groups, meta, status, desc⟩ := job
  cases name <;> cases desc <;> cases status <;> simp [JobToPv]

/-! ### Names and identities -/

/-- C14: `PvcToJobName` fails exactly when the claim is nil or its name is
empty; on every other claim it returns the name of the claim, unchanged,
whatever the labels (a nil label map included). -/
theorem C14_PvcToJobName_contract (pvc : Option PersistentVolumeClaim) :
    ((∃ e, PvcToJobName pvc = .error e) ↔
      (pvc = none ∨ ∃ p, pvc = some p ∧ p.Name = "")) ∧
    (∀ name labels, name ≠ "" →
      PvcToJobName (some { Name := name, Labels := labels }) = .ok name) ∧
    (∀ p, pvc = some p → p.Name ≠ "" → PvcToJobName pvc = .ok p.Name) := by
  refine ⟨?_, ?_, ?_⟩
  · cases pvc with
    | none => simp [PvcToJobName]
    | some p =>
      by_cases h : p.Name = ""
      · simp [PvcToJobName, h]
      · simp [PvcToJobName, h]
  · intro name labels h
    simp [PvcToJobName, h]
  · rintro p rfl h
    simp [PvcToJobName, h]

/-- C14 at the claim `vol1` and at a claim named `vol1` that has no label map. -/
theorem C14_PvcToJobName_contract_witness :
    PvcToJobName (some { Name := "vol1", Labels := none }) = .ok "vol1" ∧
    PvcToJobName (some sampleClaim) = .ok "vol1" :=
  ⟨(C14_PvcToJobName_contract none).2.1 "vol1" none (by decide),
   (C14_PvcToJobName_contract (some sampleClaim)).2.2 sampleClaim rfl (by decide)⟩

/-- C15: on a volume that is not nil `PvToJob` returns a job whose `Name` and `ID`
are the name of the volume and whose other fields are all unset; it fails on
the nil volume only, so a volume with an empty name is accepted. -/
theorem C15_PvToJob_stub (pv : Option PersistentVolume) :
    ((∃ e, PvToJob pv = .error e) ↔ pv = none) ∧
    (∀ v, pv = some v →
      PvToJob pv = .ok
        { Name := some v.Name, ID := some v.Name, Region := none, JobType := none,
          Priority := none, Datacenters := [], Constraints := [], TaskGroups := [],
          Meta := none, Status := none, StatusDescription := none }) ∧
    (∀ annotations status, ∃ j,
      PvToJob (some { Name := "", Annotations := annotations, Status := status }) = .ok j ∧
      j.Name = some "" ∧ j.ID = some "") := by
  refine ⟨?_, ?_, ?_⟩
  · cases pv with
    | none => simp [PvToJob]
    | some v => simp [PvToJob]
  · rintro v rfl
    rfl
  · intro annotations status
    exact ⟨_, rfl, rfl, rfl⟩

/-- C15 at a volume returned by `JobEvalToPv`. -/
theorem C15_PvToJob_stub_witness :
    PvToJob (some { Name := "vol1", Annotations := some [("evaljob", "vol1")],
                    Status := { Message := "m", Reason := "r" } })
      = .ok
        { Name := some "vol1", ID := some "vol1", Region := none, JobType := none,
          Priority := none, Datacenters := [], Constraints := [], TaskGroups := [],
          Meta := none, Status := none, StatusDescription := none } :=
  (C15_PvToJob_stub _).2.1 _ rfl

/-- The value of a required label of a valid claim, as `PvcToJob` reads it. -/
theorem mapFind_eq_some_mapIndex {m : StrMap} {k : String} (h : LabelSet m k) :
    mapFind m k = some (mapIndex m k) := by
  unfold mapIndex
  cases hf : mapFind m k with
  | none => exact absurd hf h.1
  | some v => rfl

theorem mapIndex_congr {m m' : StrMap} {k : String} (h : mapFind m k = mapFind m' k) :
    mapIndex m k = mapIndex m' k := by
  unfold mapIndex
  rw [h]

/-- C16: `PvcToJob` is a function of the claim: equal claims give equal results;
and two valid claims with the same name and the same values of the eight
required labels give the same job, whatever else their label maps hold. -/
theorem C16_PvcToJob_deterministic (K : ApiConsts) (p q : PersistentVolumeClaim)
    (hp : ValidClaim K p) (hq : ValidClaim K q) (hname : p.Name = q.Name)
    (hlabels : ∀ k ∈ requiredLabels K, mapFind p.Labels k = mapFind q.Labels k) :
    (∀ c c' : Option PersistentVolumeClaim, c = c' → PvcToJob K c = PvcToJob K c') ∧
    PvcToJob K (some p) = PvcToJob K (some q) ∧
    ∃ j, PvcToJob K (some p) = .ok j ∧ PvcToJob K (some q) = .ok j := by
  have h1 := mapIndex_congr (hlabels K.RegionLbl (by simp [requiredLabels]))
  have h2 := mapIndex_congr (hlabels K.DatacenterLbl (by simp [requiredLabels]))
  have h3 := mapIndex_congr (hlabels K.JivaFrontEndImageLbl (by simp [requiredLabels]))
  have h4 := mapIndex_congr (hlabels K.CNTypeLbl (by simp [requiredLabels]))
  have h5 := mapIndex_congr (hlabels K.JivaFrontEndIPLbl (by simp [requiredLabels]))
  have h6 := mapIndex_congr (hlabels K.JivaBackEndIPLbl (by simp [requiredLabels]))
  have h7 := mapIndex_congr (hlabels K.CNSubnetLbl (by simp [requiredLabels]))
  have h8 := mapIndex_congr (hlabels K.CNInterfaceLbl (by simp [requiredLabels]))
  have ep := PvcToJob_of_valid hp _ rfl
  have eq := PvcToJob_of_valid hq _ rfl
  have key : PvcToJob K (some p) = PvcToJob K (some q) := by
    rw [ep, eq, hname, h1, h2, h3, h4, h5, h6, h7, h8]
  refine ⟨?_, key, _, ep, ?_⟩
  · rintro c c' rfl
    rfl
  · rw [← key, ep]

/-- C16 at two claims named `vol1` whose label maps differ in their order and in
a label that `PvcToJob` does not read. -/
theorem C16_PvcToJob_deterministic_witness :
    PvcToJob sampleConsts (some sampleClaim)
      = PvcToJob sampleConsts
          (some { Name := "vol1", Labels := some (("owner", "ops") :: sampleLabels.reverse) }) :=
  (C16_PvcToJob_deterministic sampleConsts sampleClaim
    { Name := "vol1", Labels := some (("owner", "ops") :: sampleLabels.reverse) }
    (by decide) (by decide) rfl (by decide)).2.1

/-- A job comes out of `PvcToJob` on a valid claim only. -/
theorem PvcToJob_ok_inv {K : ApiConsts} {pvc : Option PersistentVolumeClaim} {j : Job}
    (h : PvcToJob K pvc = .ok j) : ∃ p, pvc = some p ∧ ValidClaim K p := by
  cases pvc with
  | none => simp [PvcToJob] at h
  | some p => exact ⟨p, rfl, (PvcToJob_isOk_iff K p).1 ⟨j, h⟩⟩

/-- C17: claim name, job name and volume name are one string: when `PvcToJob`
returns a job, `PvcToJobName` returns the `Name` (and `ID`) of that job; and for
every evaluation, the volume `JobEvalToPv` returns under that name is turned
by `PvToJob` into a job with the same `Name` and `ID`. -/
theorem C17_name_correspondence (K : ApiConsts) (pvc : Option PersistentVolumeClaim) (j : Job)
    (h : PvcToJob K pvc = .ok j) :
    ∃ n, PvcToJobName pvc = .ok n ∧ j.Name = some n ∧ j.ID = some n ∧
      ∀ ev : Evaluation, ∃ pv stub,
        JobEvalToPv n (some ev) = .ok pv ∧ pv.Name = n ∧
        PvToJob (some pv) = .ok stub ∧ stub.Name = j.Name ∧ stub.ID = j.ID := by
  obtain ⟨p, rfl, hv⟩ := PvcToJob_ok_inv h
  rw [PvcToJob_of_valid hv _ rfl] at h
  injection h with h
  subst h
  refine ⟨p.Name, ?_, rfl, rfl, ?_⟩
  · simp [PvcToJobName, hv.1]
  · intro ev
    exact ⟨_, _, rfl, rfl, rfl, rfl, rfl⟩

/-- C17 at the claim `vol1` of the end-to-end example and an evaluation of its job. -/
theorem C17_name_correspondence_witness :
    ∃ j, PvcToJob sampleConsts (some sampleClaim) = .ok j ∧
      ∃ n, PvcToJobName (some sampleClaim) = .ok n ∧ j.Name = some n ∧ j.ID = some n ∧
        ∀ ev : Evaluation, ∃ pv stub,
          JobEvalToPv n (some ev) = .ok pv ∧ pv.Name = n ∧
          PvToJob (some pv) = .ok stub ∧ stub.Name = j.Name ∧ stub.ID = j.ID :=
  ⟨_, rfl, C17_name_correspondence sampleConsts (some sampleClaim) _ rfl⟩

/-- C18: the connection metadata goes through the job and back: when the job of a
valid claim is given the status `running` and any status description, `JobToPv`
returns a volume named after the claim whose annotations are exactly
`targetportal` = frontend IP, `:`, port and `iqn` = IQN prefix, `:`, claim name;
when it is given any other status, the volume has no annotations. -/
theorem C18_metadata_roundtrip (K : ApiConsts) (p : PersistentVolumeClaim)
    (h : ValidClaim K p) :
    ∃ j, PvcToJob K (some p) = .ok j ∧
      (∀ desc, ∃ pv,
        JobToPv (some { j with Status := some "running", StatusDescription := some desc })
          = .ok pv ∧
        pv.Name = p.Name ∧
        HasExactly pv.Annotations
          [("targetportal",
              mapIndex p.Labels K.JivaFrontEndIPLbl ++ ":" ++ K.JivaIscsiTargetPortalPort),
           ("iqn", K.JivaIqnFormatPrefix ++ ":" ++ p.Name)]) ∧
      (∀ status desc, status ≠ "running" → ∃ pv,
        JobToPv (some { j with Status := some status, StatusDescription := some desc })
          = .ok pv ∧
        pv.Name = p.Name ∧ pv.Annotations = none) := by
  refine ⟨_, PvcToJob_of_valid h _ rfl, ?_, ?_⟩
  · intro desc
    exact ⟨_, rfl, rfl, _, rfl, List.Perm.refl _, by simp⟩
  · intro status desc hs
    refine ⟨_, rfl, rfl, ?_⟩
    simp only [JobStatusRunning, if_neg hs]

/-- C18 at the claim `vol1` of the end-to-end example. -/
theorem C18_metadata_roundtrip_witness :
    ValidClaim sampleConsts sampleClaim ∧
    ∃ j, PvcToJob sampleConsts (some sampleClaim) = .ok j ∧
      (∀ desc, ∃ pv,
        JobToPv (some { j with Status := some "running", StatusDescription := some desc })
          = .ok pv ∧
        pv.Name = "vol1" ∧
        HasExactly pv.Annotations
          [("targetportal", "10.0.0.5:3260"), ("iqn", "iqn.2016-09.com.openebs.jiva:vol1")]) ∧
      (∀ status desc, status ≠ "running" → ∃ pv,
        JobToPv (some { j with Status := some status, StatusDescription := some desc })
          = .ok pv ∧
        pv.Name = "vol1" ∧ pv.Annotations = none) :=
  ⟨by decide, C18_metadata_roundtrip sampleConsts sampleClaim (by decide)⟩

/-- C19: in a job returned by `PvcToJob` the two tiers point at the same
controller and the same volume: the backend's `JIVA_CTL_IP` is the frontend's,
and `targetportal` is that address, `:`, the port; `JIVA_REP_VOLNAME` is
`JIVA_CTL_VOLNAME` and the name of the job; `JIVA_REP_VOLSIZE` is
`JIVA_CTL_VOLSIZE`; the subnet, interface and version of the backend are those
of the frontend. -/
theorem C19_tiers_wired_together (K : ApiConsts) (pvc : Option PersistentVolumeClaim) (j : Job)
    (h : PvcToJob K pvc = .ok j) :
    ∃ ip vol size subnet iface version,
      frontendEnv j "JIVA_CTL_IP" = some ip ∧ backendEnv j "JIVA_CTL_IP" = some ip ∧
      mapFind j.Meta "targetportal" = some (ip ++ ":" ++ K.JivaIscsiTargetPortalPort) ∧
      frontendEnv j "JIVA_CTL_VOLNAME" = some vol ∧ backendEnv j "JIVA_REP_VOLNAME" = some vol ∧
      j.Name = some vol ∧
      frontendEnv j "JIVA_CTL_VOLSIZE" = some size ∧ backendEnv j "JIVA_REP_VOLSIZE" = some size ∧
      frontendEnv j "JIVA_CTL_SUBNET" = some subnet ∧ backendEnv j "JIVA_REP_SUBNET" = some subnet ∧
      frontendEnv j "JIVA_CTL_IFACE" = some iface ∧ backendEnv j "JIVA_REP_IFACE" = some iface ∧
      frontendEnv j "JIVA_CTL_VERSION" = some version ∧
      backendEnv j "JIVA_REP_VERSION" = some version := by
  obtain ⟨p, rfl, hv⟩ := PvcToJob_ok_inv h
  rw [PvcToJob_of_valid hv _ rfl] at h
  injection h with h
  subst h
  exact ⟨_, _, _, _, _, _, rfl, rfl, rfl, rfl, rfl, rfl, rfl, rfl, rfl, rfl, rfl, rfl, rfl, rfl⟩

/-- C19 at the claim `vol1` of the end-to-end example. -/
theorem C19_tiers_wired_together_witness :
    ∃ j, PvcToJob sampleConsts (some sampleClaim) = .ok j ∧
      frontendEnv j "JIVA_CTL_IP" = some "10.0.0.5" ∧
      backendEnv j "JIVA_CTL_IP" = some "10.0.0.5" ∧
      ∃ ip vol size subnet iface version,
        frontendEnv j "JIVA_CTL_IP" = some ip ∧ backendEnv j "JIVA_CTL_IP" = some ip ∧
        mapFind j.Meta "targetportal" = some (ip ++ ":" ++ "3260") ∧
        frontendEnv j "JIVA_CTL_VOLNAME" = some vol ∧ backendEnv j "JIVA_REP_VOLNAME" = some vol ∧
        j.Name = some vol ∧
        frontendEnv j "JIVA_CTL_VOLSIZE" = some size ∧ backendEnv j "JIVA_REP_VOLSIZE" = some size ∧
        frontendEnv j "JIVA_CTL_SUBNET" = some subnet ∧
        backendEnv j "JIVA_REP_SUBNET" = some subnet ∧
        frontendEnv j "JIVA_CTL_IFACE" = some iface ∧ backendEnv j "JIVA_REP_IFACE" = some iface ∧
        frontendEnv j "JIVA_CTL_VERSION" = some version ∧
        backendEnv j "JIVA_REP_VERSION" = some version :=
  ⟨_, rfl, rfl, rfl, C19_tiers_wired_together sampleConsts (some sampleClaim) _ rfl⟩

theorem append_left_cancel_iff (a b c : String) : a ++ b = a ++ c ↔ b = c := by
  constructor
  · intro h
    have hd := congrArg String.data h
    simp only [String.data_append] at hd
    exact String.ext (List.append_cancel_left hd)
  · intro h
    rw [h]

theorem append_right_cancel_iff (a b c : String) : b ++ a = c ++ a ↔ b = c := by
  constructor
  · intro h
    have hd := congrArg String.data h
    simp only [String.data_append] at hd
    exact String.ext (List.append_cancel_right hd)
  · intro h
    rw [h]

/-- C20: the identities of a job are injective in the name of the claim: for two
valid claims, the `ID`, the `iqn`, `JIVA_CTL_NAME`, `JIVA_REP_NAME` and
`JIVA_REP_VOLSTORE` of their jobs are each equal exactly when the two names are
equal, so they differ for different names and agree for one name, whatever the
labels. -/
theorem C20_identities_injective (K : ApiConsts) (p q : PersistentVolumeClaim)
    (hp : ValidClaim K p) (hq : ValidClaim K q) :
    ∃ jp jq, PvcToJob K (some p) = .ok jp ∧ PvcToJob K (some q) = .ok jq ∧
      ∃ idp idq iqnp iqnq ctlp ctlq repp repq storep storeq,
        jp.ID = some idp ∧ jq.ID = some idq ∧
        mapFind jp.Meta "iqn" = some iqnp ∧ mapFind jq.Meta "iqn" = some iqnq ∧
        frontendEnv jp "JIVA_CTL_NAME" = some ctlp ∧ frontendEnv jq "JIVA_CTL_NAME" = some ctlq ∧
        backendEnv jp "JIVA_REP_NAME" = some repp ∧ backendEnv jq "JIVA_REP_NAME" = some repq ∧
        backendEnv jp "JIVA_REP_VOLSTORE" = some storep ∧
        backendEnv jq "JIVA_REP_VOLSTORE" = some storeq ∧
        (idp = idq ↔ p.Name = q.Name) ∧
        (iqnp = iqnq ↔ p.Name = q.Name) ∧
        (ctlp = ctlq ↔ p.Name = q.Name) ∧
        (repp = repq ↔ p.Name = q.Name) ∧
        (storep = storeq ↔ p.Name = q.Name) := by
  refine ⟨_, _, PvcToJob_of_valid hp _ rfl, PvcToJob_of_valid hq _ rfl,
    _, _, _, _, _, _, _, _, _, _, rfl, rfl, rfl, rfl, rfl, rfl, rfl, rfl, rfl, rfl,
    Iff.rfl, ?_, ?_, ?_, ?_⟩
  · simp only [append_left_cancel_iff]
  · simp only [append_right_cancel_iff]
  · simp only [append_right_cancel_iff]
  · simp only [append_right_cancel_iff, append_left_cancel_iff]

/-- C20 at the claims `vol1` and `vol2`, whose names differ. -/
theorem C20_identities_injective_witness :
    ValidClaim sampleConsts sampleClaim ∧ ValidClaim sampleConsts sampleClaim2 ∧
    sampleClaim.Name ≠ sampleClaim2.Name ∧
    ∃ jp jq, PvcToJob sampleConsts (some sampleClaim) = .ok jp ∧
      PvcToJob sampleConsts (some sampleClaim2) = .ok jq ∧
      ∃ idp idq iqnp iqnq ctlp ctlq repp repq storep storeq,
        jp.ID = some idp ∧ jq.ID = some idq ∧
        mapFind jp.Meta "iqn" = some iqnp ∧ mapFind jq.Meta "iqn" = some iqnq ∧
        frontendEnv jp "JIVA_CTL_NAME" = some ctlp ∧ frontendEnv jq "JIVA_CTL_NAME" = some ctlq ∧
        backendEnv jp "JIVA_REP_NAME" = some repp ∧ backendEnv jq "JIVA_REP_NAME" = some repq ∧
        backendEnv jp "JIVA_REP_VOLSTORE" = some storep ∧
        backendEnv jq "JIVA_REP_VOLSTORE" = some storeq ∧
        (idp = idq ↔ sampleClaim.Name = sampleClaim2.Name) ∧
        (iqnp = iqnq ↔ sampleClaim.Name = sampleClaim2.Name) ∧
        (ctlp = ctlq ↔ sampleClaim.Name = sampleClaim2.Name) ∧
        (repp = repq ↔ sampleClaim.Name = sampleClaim2.Name) ∧
        (storep = storeq ↔ sampleClaim.Name = sampleClaim2.Name) :=
  ⟨by decide, by decide, by decide,
    C20_identities_injective sampleConsts sampleClaim sampleClaim2 (by decide) (by decide)⟩

end Nomad
